import Mathlib

/-!
Verification of the Halberd technique-plugin framework and playbook
orchestration engine against its natural-language specification.

The Python sources under scrutiny are shallowly embedded below:
pure functions become Lean functions, dict values become association
lists, external effects (boto3, subprocess, json, the filesystem) are
passed in explicitly as environment records so that the control flow of
each Python function is reproduced exactly, and fallible code returns
`Except`.  Code of the repository that is not present under `src/`
(the `Playbook` class, `TechniqueRegistry`, `BaseTechnique`) is modelled
from the specification; every such definition carries a doc comment
starting with `Modelled from the spec:`.
-/

/-- Python values appearing as technique parameters, payload fields and
parameter-spec fields.  Nested JSON structures that only flow through the
code opaquely are supplied by the environment as `PyVal`s. -/
inductive PyVal where
  | none
  | str (s : String)
  | int (n : Int)
  | bool (b : Bool)
  | strList (xs : List String)
  | strDict (xs : List (String × String))
deriving DecidableEq, Repr

/-- A supplied parameter mapping (Python `kwargs` dict), as an association
list from parameter name to value. -/
abbrev Params := List (String × PyVal)

/-- One parameter's specification dict, e.g.
`{"type": "str", "required": False, "default": None, "name": ..., "input_field_type": ...}`. -/
abbrev ParamFields := List (String × PyVal)

/-- The result of `get_parameters`: parameter name to spec dict, in
declaration order. -/
abbrev ParamDict := List (String × ParamFields)

/-- The `ExecutionStatus` enumeration of `attack_techniques/base_technique.py`
(values named in the spec and used by every technique under `src/`). -/
inductive ExecutionStatus where
  | SUCCESS
  | PARTIAL_SUCCESS
  | FAILURE
  | ERROR
deriving DecidableEq, Repr

/-- A technique result payload: the dict returned as the second component of
`execute`, with the keys the sources actually use. -/
structure Payload where
  message : Option PyVal
  error : Option PyVal
  value : Option PyVal
deriving Repr

/-- Python truthiness test `x in [None, ""]` used by the techniques for
missing-or-empty parameter values. -/
def pyNoneOrEmpty (v : PyVal) : Bool :=
  v == PyVal.none || v == PyVal.str ("")

/-- Python dict subscription `kwargs[k]`: raises `KeyError` when absent. -/
def pyGetItem (kwargs : Params) (k : String) : Except String PyVal :=
  match List.lookup k kwargs with
  | some v => Except.ok v
  | Option.none => Except.error (("KeyError: ") ++ k)

-- ## get_parameters of every technique under src/ (transcribed from source)

/-- `AWSEnumerateIAMUsers.get_parameters`
(src/attack_techniques/aws/aws_enumerate_iam_users.py:71). -/
def awsEnumerateIAMUsers_get_parameters : ParamDict :=
  [ (("path_prefix"),
      [ (("type"), PyVal.str ("str"))
      , (("required"), PyVal.bool false)
      , (("default"), PyVal.none)
      , (("name"), PyVal.str ("Role Path Prefix"))
      , (("input_field_type"), PyVal.str ("text")) ]) ]

/-- `AzureEstablishAccessAsUser.get_parameters`
(src/attack_techniques/azure/azure_establish_access_as_user.py:112). -/
def azureEstablishAccessAsUser_get_parameters : ParamDict :=
  [ (("username"),
      [ (("type"), PyVal.str ("str"))
      , (("required"), PyVal.bool true)
      , (("default"), PyVal.none)
      , (("name"), PyVal.str ("Username"))
      , (("input_field_type"), PyVal.str ("text")) ])
  , (("password"),
      [ (("type"), PyVal.str ("str"))
      , (("required"), PyVal.bool true)
      , (("default"), PyVal.none)
      , (("name"), PyVal.str ("Password"))
      , (("input_field_type"), PyVal.str ("password")) ]) ]

/-- `AzureEstablishAccessAsApp.get_parameters`
(src/attack_techniques/azure/azure_establish_access_as_app.py:128). -/
def azureEstablishAccessAsApp_get_parameters : ParamDict :=
  [ (("app_id"),
      [ (("type"), PyVal.str ("str"))
      , (("required"), PyVal.bool true)
      , (("default"), PyVal.none)
      , (("name"), PyVal.str ("App ID"))
      , (("input_field_type"), PyVal.str ("text")) ])
  , (("app_secret"),
      [ (("type"), PyVal.str ("str"))
      , (("required"), PyVal.bool true)
      , (("default"), PyVal.none)
      , (("name"), PyVal.str ("App Secret"))
      , (("input_field_type"), PyVal.str ("password")) ])
  , (("tenant_id"),
      [ (("type"), PyVal.str ("str"))
      , (("required"), PyVal.bool true)
      , (("default"), PyVal.none)
      , (("name"), PyVal.str ("Tenant ID"))
      , (("input_field_type"), PyVal.str ("text")) ])
  , (("allow_no_sub_login"),
      [ (("type"), PyVal.str ("bool"))
      , (("required"), PyVal.bool false)
      , (("default"), PyVal.bool true)
      , (("name"), PyVal.str ("Attempt Login Without Subscription"))
      , (("input_field_type"), PyVal.str ("bool")) ]) ]

/-- `AzurePasswordSpray.get_parameters`
(src/attack_techniques/azure/azure_password_spray.py:144). -/
def azurePasswordSpray_get_parameters : ParamDict :=
  [ (("username_file"),
      [ (("type"), PyVal.str ("str"))
      , (("required"), PyVal.bool true)
      , (("default"), PyVal.none)
      , (("name"), PyVal.str ("Username File"))
      , (("input_field_type"), PyVal.str ("upload")) ])
  , (("password"),
      [ (("type"), PyVal.str ("str"))
      , (("required"), PyVal.bool true)
      , (("default"), PyVal.none)
      , (("name"), PyVal.str ("Password"))
      , (("input_field_type"), PyVal.str ("password")) ])
  , (("wait"),
      [ (("type"), PyVal.str ("int"))
      , (("required"), PyVal.bool false)
      , (("default"), PyVal.int 3)
      , (("name"), PyVal.str ("Wait (in sec)"))
      , (("input_field_type"), PyVal.str ("number")) ])
  , (("stop_at_first_match"),
      [ (("type"), PyVal.str ("bool"))
      , (("required"), PyVal.bool false)
      , (("default"), PyVal.bool true)
      , (("name"), PyVal.str ("Stop at First Match"))
      , (("input_field_type"), PyVal.str ("bool")) ]) ]

/-- `AzureModifyKeyvaultAccess.get_parameters`
(src/attack_techniques/azure/azure_modify_keyvault_access.py:174): the
empty mapping. -/
def azureModifyKeyvaultAccess_get_parameters : ParamDict := []

/-- A parameter-spec dict entry carries all five contract fields:
`type`, `required`, `default`, display name (`name`) and input-field hint
(`input_field_type`). -/
def hasAllFields (pf : ParamFields) : Bool :=
  [("type"), ("required"), ("default"), ("name"), ("input_field_type")].all
    (fun k => (List.lookup k pf).isSome)

-- ## validate_parameters (base_technique.py is not under src/)

/-- Whether a parameter spec dict marks the parameter required. -/
def isRequired (pf : ParamFields) : Bool :=
  List.lookup ("required") pf == some (PyVal.bool true)

/-- Whether a supplied mapping contains a non-empty value for `n`. -/
def suppliedNonEmpty (supplied : Params) (n : String) : Bool :=
  match List.lookup n supplied with
  | some v => !(pyNoneOrEmpty v)
  | Option.none => false

/-- Modelled from the spec: `BaseTechnique.validate_parameters`
(`attack_techniques/base_technique.py` is not under `src/`).  Per spec
section 4.1 it "checks every parameter marked `required` in the spec is
present and non-empty in `supplied`; fails with a validation error (naming
the missing field) otherwise". -/
def validate_parameters (specs : ParamDict) (supplied : Params) :
    Except String Unit :=
  match specs.find? (fun p => isRequired p.2 && !(suppliedNonEmpty supplied p.1)) with
  | some p => Except.error (("ValidationError: missing required parameter: ") ++ p.1)
  | Option.none => Except.ok ()

-- ## Technique execute embeddings (from source)

/-- Outcome of a Python `subprocess.run` call. -/
structure SubprocResult where
  returncode : Int
  stdout : String
  stderr : String
deriving DecidableEq, Repr

/-- Environment for `AWSEnumerateIAMUsers.execute`: outcomes of the
external boto3 calls.  An `Except.error` field means the corresponding
Python call raised (`ClientError` or any other exception), carrying
`str(e)`. -/
structure AwsEnv where
  clientInit : Except String Unit
  listUsersAll : Except String (Int × List String × PyVal)
  listUsersPrefixed : Except String (Int × List String × PyVal)

/-- Body of the `try` block of `AWSEnumerateIAMUsers.execute`
(src/attack_techniques/aws/aws_enumerate_iam_users.py:29).  The response
triple is `(HTTPStatusCode, Users, ResponseMetadata)`. -/
def awsEnumerateIAMUsers_tryBody (kwargs : Params) (env : AwsEnv) :
    Except String (ExecutionStatus × Payload) := do
  let pathParam := (List.lookup ("path_prefix") kwargs).getD PyVal.none
  let _ ← env.clientInit
  let rawResponse ←
    if pyNoneOrEmpty pathParam then env.listUsersAll else env.listUsersPrefixed
  let (httpStatusCode, users, responseMetadata) := rawResponse
  if 200 ≤ httpStatusCode ∧ httpStatusCode < 300 then
    pure (ExecutionStatus.SUCCESS,
      ⟨some (PyVal.str (if users.isEmpty then ("No users found")
              else ("Successfully enumerated ") ++ toString users.length ++ (" users"))),
       Option.none, some (PyVal.strList users)⟩)
  else
    pure (ExecutionStatus.FAILURE,
      ⟨some (PyVal.str ("Failed to enumerate IAM users")),
       some responseMetadata, Option.none⟩)

/-- The `except` clauses of a technique `execute`: any exception escaping
the `try` body is converted to a `FAILURE` pair whose payload carries
`str(e)` under `error` and a fixed message. -/
def catchAsFailure (msg : String) :
    Except String (ExecutionStatus × Payload) → ExecutionStatus × Payload
  | Except.ok r => r
  | Except.error e =>
      (ExecutionStatus.FAILURE, ⟨some (PyVal.str msg), some (PyVal.str e), Option.none⟩)

/-- `AWSEnumerateIAMUsers.execute`
(src/attack_techniques/aws/aws_enumerate_iam_users.py:27).  Note that
`self.validate_parameters(kwargs)` is invoked before the `try` block, so a
validation error propagates out of `execute` uncaught. -/
def awsEnumerateIAMUsers_execute (kwargs : Params) (env : AwsEnv) :
    Except String (ExecutionStatus × Payload) :=
  match validate_parameters awsEnumerateIAMUsers_get_parameters kwargs with
  | Except.error e => Except.error e
  | Except.ok _ =>
      Except.ok (catchAsFailure ("Failed to enumerate IAM users")
        (awsEnumerateIAMUsers_tryBody kwargs env))

/-- Environment for `AzureEstablishAccessAsUser.execute`: outcomes of the
external calls (`AzureAccess().az_command`, the two `subprocess.run`
invocations, `json.loads`, and the subscription-dict transformation of the
inner `try` block). -/
structure AzUserEnv where
  azCliPath : Except String String
  loginRun : Except String SubprocResult
  interactiveRun : Except String SubprocResult
  jsonLoads : String → Except String PyVal
  subsTransform : PyVal → Except String PyVal

/-- Body of the outer `try` block of `AzureEstablishAccessAsUser.execute`
(src/attack_techniques/azure/azure_establish_access_as_user.py:49). -/
def azureEstablishAccessAsUser_tryBody (kwargs : Params) (env : AzUserEnv) :
    Except String (ExecutionStatus × Payload) := do
  let username ← pyGetItem kwargs ("username")
  let password ← pyGetItem kwargs ("password")
  if pyNoneOrEmpty username || pyNoneOrEmpty password then
    pure (ExecutionStatus.FAILURE,
      ⟨some (PyVal.strDict [(("Error"), ("Invalid Technique Input"))]),
       some (PyVal.strDict [(("Error"), ("Invalid Technique Input"))]), Option.none⟩)
  else do
    let _azCommand ← env.azCliPath
    let rawFirst ← env.loginRun
    let rawResponse ←
      if rawFirst.returncode == 1 then env.interactiveRun else pure rawFirst
    if rawResponse.returncode == 0 then do
      let strucOutput ← env.jsonLoads rawResponse.stdout
      match env.subsTransform strucOutput with
      | Except.ok output =>
          pure (ExecutionStatus.SUCCESS,
            ⟨some (PyVal.str ("Successfully established access to target Azure tenant")),
             Option.none, some output⟩)
      | Except.error _ =>
          pure (ExecutionStatus.PARTIAL_SUCCESS,
            ⟨some (PyVal.str ("Successfully established access to target Azure tenant")),
             Option.none, some strucOutput⟩)
    else
      pure (ExecutionStatus.FAILURE,
        ⟨some (PyVal.str ("Failed to establish access to Azure tenant")),
         some (PyVal.str (toString rawResponse.returncode)), Option.none⟩)

/-- `AzureEstablishAccessAsUser.execute`
(src/attack_techniques/azure/azure_establish_access_as_user.py:47).
`self.validate_parameters(kwargs)` precedes the `try` block, so a
validation error propagates out of `execute` uncaught; every exception
raised inside the `try` block is returned as a `FAILURE` pair. -/
def azureEstablishAccessAsUser_execute (kwargs : Params) (env : AzUserEnv) :
    Except String (ExecutionStatus × Payload) :=
  match validate_parameters azureEstablishAccessAsUser_get_parameters kwargs with
  | Except.error e => Except.error e
  | Except.ok _ =>
      Except.ok (catchAsFailure ("Failed to establish access to Azure tenant")
        (azureEstablishAccessAsUser_tryBody kwargs env))

-- ## Technique Registry (spec-modelled) and Playbook Engine (spec-modelled)

/-- Registry errors from spec section 4.2: duplicate-id collision on
`register`, not-found on `get`. -/
inductive RegistryError where
  | DuplicateId (id : String)
  | NotFound (id : String)
deriving DecidableEq, Repr

/-- Modelled from the spec: `TechniqueRegistry`
(`attack_techniques/technique_registry.py` is not under `src/`; only its
`@TechniqueRegistry.register` and `get_technique` call sites are).  A
process-wide catalog mapping a stable id to a technique class, in
insertion order. -/
structure TechniqueRegistry (α : Type) where
  catalog : List (String × α)
deriving DecidableEq, Repr

/-- Modelled from the spec: `register(technique_class)` "adds the class
under its declared id; fails with a DuplicateId error if the id is
already present". -/
def TechniqueRegistry.register {α : Type} (r : TechniqueRegistry α)
    (id : String) (cls : α) : Except RegistryError (TechniqueRegistry α) :=
  if (List.lookup id r.catalog).isSome then
    Except.error (RegistryError.DuplicateId id)
  else
    Except.ok ⟨r.catalog ++ [(id, cls)]⟩

/-- Modelled from the spec: `get(id)` "fails with NotFound if absent". -/
def TechniqueRegistry.getTechnique {α : Type} (r : TechniqueRegistry α)
    (id : String) : Except RegistryError α :=
  match List.lookup id r.catalog with
  | some cls => Except.ok cls
  | Option.none => Except.error (RegistryError.NotFound id)

/-- Modelled from the spec: `list()` "returns the full catalog for
enumeration". -/
def TechniqueRegistry.listAll {α : Type} (r : TechniqueRegistry α) :
    List (String × α) := r.catalog

/-- `PlaybookStep` (src/core/playbook/playbook_step.py:6). -/
structure PlaybookStep where
  module : String
  params : Params
  wait : Option Int
deriving Repr

/-- `PlaybookStep.__init__` (src/core/playbook/playbook_step.py:9): stores
`module` and `wait` as given; stores `params` as given unless it is
`None`, in which case the empty mapping is stored. -/
def PlaybookStep.init (module : String) (params : Option Params)
    (wait : Option Int) : PlaybookStep :=
  { module := module
  , params := match params with
      | some ps => ps
      | Option.none => []
  , wait := wait }

/-- The behavior of one technique as seen by the Engine: parameter
validation and execution, each able to raise. -/
structure Technique where
  validate : Params → Except String Unit
  run : Params → Except String (ExecutionStatus × Payload)

/-- Structural playbook failures from spec section 4.4: the Engine raises
`PlaybookError` only when a run cannot start at all. -/
inductive PlaybookError where
  | notFound (name : String)
  | emptySequence
deriving DecidableEq, Repr

/-- One record of an execution report (spec section 3, ExecutionReport):
step position, technique id, status, message. -/
structure ReportRecord where
  position : Nat
  module : String
  status : ExecutionStatus
  message : Option PyVal
deriving Repr

/-- Modelled from the spec: the per-step processing of the Engine
(`core/playbook/playbook.py` is not under `src/`).  Per spec section 4.4:
a Registry resolution failure is recorded as a step-level ERROR result, a
validation failure is recorded as a step-level ERROR result, an uncaught
fault from the technique is caught and converted to an ERROR status, and
otherwise the returned status and message are recorded. -/
def executeStep (reg : TechniqueRegistry Technique) (pos : Nat)
    (step : PlaybookStep) : ReportRecord :=
  match List.lookup step.module reg.catalog with
  | Option.none =>
      ⟨pos, step.module, ExecutionStatus.ERROR,
        some (PyVal.str (("Technique not found: ") ++ step.module))⟩
  | some t =>
      match t.validate step.params with
      | Except.error e =>
          ⟨pos, step.module, ExecutionStatus.ERROR, some (PyVal.str e)⟩
      | Except.ok _ =>
          match t.run step.params with
          | Except.error e =>
              ⟨pos, step.module, ExecutionStatus.ERROR, some (PyVal.str e)⟩
          | Except.ok (s, payload) =>
              ⟨pos, step.module, s, payload.message⟩

/-- Modelled from the spec: `Playbook.execute`
(`core/playbook/playbook.py` is not under `src/`).  Raises `PlaybookError`
only for an empty sequence; otherwise processes every step in ascending
position order, recording one report record per step; per-step failures
are data in the report, and execution always continues to the next
step. -/
def Playbook.execute (reg : TechniqueRegistry Technique)
    (steps : List PlaybookStep) : Except PlaybookError (List ReportRecord) :=
  match steps with
  | [] => Except.error PlaybookError.emptySequence
  | _ => Except.ok (steps.enum.map (fun p => executeStep reg (p.1 + 1) p.2))

-- ## Playbook file, export and import (spec-modelled)

/-- One entry of a playbook file's `PB_Sequence`: the dict
`Module / Params / Wait` written by the automator page. -/
structure SeqEntry where
  module : String
  params : Params
  wait : Int
deriving DecidableEq, Repr

/-- A playbook file's top-level content (spec section 6): name,
description, author, references and the ordered step mapping keyed by
position. -/
structure PlaybookFile where
  name : String
  description : String
  author : String
  references : List String
  sequence : List (Nat × SeqEntry)
deriving DecidableEq, Repr

/-- Modelled from the spec: the placeholder written in place of parameter
values by a masked export (spec section 4.3: "parameter values are masked
(replaced with a placeholder) so secrets are not leaked"). -/
def maskedValue : PyVal := PyVal.str ("MASKED_PARAM")

/-- Replace every parameter value of a step with the mask placeholder. -/
def maskStepParams (e : SeqEntry) : SeqEntry :=
  { e with params := e.params.map (fun kv => (kv.1, maskedValue)) }

/-- Modelled from the spec: `Playbook.export`
(`core/playbook/playbook.py` is not under `src/`).  Serializes the
playbook; when `include_params` is false every parameter value is replaced
by the placeholder. -/
def Playbook.export (pb : PlaybookFile) (includeParams : Bool) : PlaybookFile :=
  if includeParams then pb
  else { pb with sequence := pb.sequence.map (fun ns => (ns.1, maskStepParams ns.2)) }

/-- Modelled from the spec: `Playbook.import_playbook`
(`core/playbook/playbook.py` is not under `src/`).  Deserializes a
playbook file into a new on-disk playbook; fails with a NameCollision
error when the imported name already exists. -/
def Playbook.import_playbook (contents : PlaybookFile)
    (existingNames : List String) : Except String PlaybookFile :=
  if contents.name ∈ existingNames then
    Except.error (("NameCollisionError: ") ++ contents.name)
  else Except.ok contents

/-- `export_playbook_callback` (src/pages/automator.py:1443), reduced to
its export decision: the playbook is exported with `include_params` set to
the negation of the mask switch (`include_params=not (mask_param)`,
src/pages/automator.py:1458). -/
def export_playbook_callback (maskParam : Bool) (pb : PlaybookFile) : PlaybookFile :=
  Playbook.export pb (!maskParam)

-- ## Playbook Creator and Editor step callbacks (src/pages/automator.py)

/-- `generate_step_form(step_number)` abstracted to the step number shown
in the form header (`"Step N"`): the renumbering callbacks below only read
and rewrite that number, so a creator form is embedded as its header
number. -/
def generate_step_form (n : Nat) : Nat := n

/-- `add_playbook_step` (src/pages/automator.py:1975): appends a fresh
form numbered `len(current_steps) + 1`. -/
def add_playbook_step (currentSteps : List Nat) : List Nat :=
  currentSteps ++ [generate_step_form (currentSteps.length + 1)]

/-- `remove_playbook_step` (src/pages/automator.py:1992): drops every form
whose header number equals the clicked index and regenerates the remaining
forms numbered `1..len(remaining)`. -/
def remove_playbook_step (stepToRemove : Nat) (currentSteps : List Nat) :
    List Nat :=
  let remainingSteps := currentSteps.filter (fun n => n != stepToRemove)
  (List.range remainingSteps.length).map (fun i => generate_step_form (i + 1))

/-- Python truthiness of a module dropdown value (`if module:`): `None`
and the empty string are falsy. -/
def moduleSelected : Option String → Bool
  | some m => !(m == (""))
  | Option.none => false

/-- The `PB_Sequence` rebuild loop of `update_playbook_from_editor`
(src/pages/automator.py:2505): for each form row `i` (0-based) of
`zip(modules, waits)` whose module is selected, write sequence key `i + 1`
with the module, the row's grouped parameters, and `int(wait) if wait
else 0`. -/
def rebuildSequenceRows (rows : List (Option String × Option Int))
    (stepParams : Nat → Params) : List (Nat × SeqEntry) :=
  rows.enum.filterMap (fun p =>
    match p.2.1 with
    | some m =>
        if m == ("") then Option.none
        else some (p.1 + 1, ⟨m, stepParams p.1, (p.2.2).getD 0⟩)
    | Option.none => Option.none)

/-- `update_playbook_from_editor` (src/pages/automator.py:2457), reduced
to the sequence it stores into `PB_Sequence` after clearing it. -/
def update_playbook_from_editor (modules : List (Option String))
    (waits : List (Option Int)) (stepParams : Nat → Params) :
    List (Nat × SeqEntry) :=
  rebuildSequenceRows (modules.zip waits) stepParams

-- ## Progress tracker callback (src/pages/automator.py:2638)

/-- Outcome of a Dash callback: either `PreventUpdate` was raised (the UI
keeps its previous state) or new output values are produced. -/
inductive CallbackResult (α : Type) where
  | preventUpdate
  | ok (val : α)
deriving DecidableEq, Repr

/-- Python `d.startswith(pre)`, computed on the underlying character
lists. -/
def pyStartsWith (d pre : String) : Bool :=
  pre.data.isPrefixOf d.data

/-- Python `s < t` on strings (lexicographic), computed on the underlying
character lists; definitionally the order of `String` instances. -/
def pyStrLt (a b : String) : Bool :=
  decide (a.data < b.data)

/-- Python `max(f :: fs)` over strings: the lexicographically greatest
element. -/
def pyMaxStr (f : String) (fs : List String) : String :=
  fs.foldl (fun a b => if pyStrLt a b then b else a) f

/-- The data shown by the progress display: steps completed, total steps,
and one card per step `(step_no, status, is_active)`. -/
structure ProgressView where
  stepsCompleted : Nat
  totalSteps : Nat
  cards : List (Nat × Option String × Bool)
deriving DecidableEq, Repr

/-- The per-step status cards built by `update_execution_progress`
(src/pages/automator.py:2667): a step strictly before `len(results)` shows
its parsed status, the step at `len(results)` is active, later steps are
pending. -/
def stepCards (sequence : List (Nat × SeqEntry))
    (results : List (List (String × String))) :
    List (Nat × Option String × Bool) :=
  sequence.map (fun s =>
    let stepIndex := s.1 - 1
    if stepIndex < results.length then
      (s.1, (results.get? stepIndex).bind (List.lookup ("status")), false)
    else if stepIndex == results.length then
      (s.1, Option.none, true)
    else
      (s.1, Option.none, false))

/-- `update_execution_progress` (src/pages/automator.py:2638).  Inputs:
the stored playbook file id, the outcome of `Playbook(playbook_data)`, 
the listing of the automator output directory, and `parse_execution_report`
as a function from a report folder to its step records.  Every exception
raised in the body (including the explicit `raise PreventUpdate` on an
empty folder list) ends in `PreventUpdate`; otherwise the progress view
and the interval-disabling flag `active_step == total_steps` are
returned. -/
def update_execution_progress (playbookData : Option String)
    (loadResult : Except String PlaybookFile) (outputListing : List String)
    (parseReport : String → List (List (String × String))) :
    CallbackResult (ProgressView × Bool) :=
  match playbookData with
  | Option.none => CallbackResult.preventUpdate
  | some _ =>
    match loadResult with
    | Except.error _ => CallbackResult.preventUpdate
    | Except.ok playbook =>
      let totalSteps := playbook.sequence.length
      let executionFolders :=
        outputListing.filter (fun d => pyStartsWith d (playbook.name ++ ("_")))
      match executionFolders with
      | [] => CallbackResult.preventUpdate
      | f :: fs =>
        let latestFolder := pyMaxStr f fs
        let results := parseReport latestFolder
        let activeStep := results.length
        CallbackResult.ok
          (⟨activeStep, totalSteps, stepCards playbook.sequence results⟩,
           activeStep == totalSteps)

-- ## Execute-playbook callback (src/pages/automator.py:1269)

/-- The seven outputs returned by `execute_playbook_callback`: progress
off-canvas open, notification open, notification text, error modal open,
error modal body, selected playbook data, interval disabled. -/
structure ExecuteCbOut where
  progressOpen : Bool
  notifOpen : Bool
  notifText : String
  errorModalOpen : Bool
  errorBody : String
  selectedData : Option String
  intervalDisabled : Bool
deriving DecidableEq, Repr

/-- `execute_playbook_callback` (src/pages/automator.py:1269).  The
`Playbook(playbook_file)` construction and `playbook.execute()` run inside
a daemon background thread started by the callback, so their outcome
`backgroundRun` cannot reach the callback's `except PlaybookError` /
`except Exception` handlers: those can only see exceptions from creating
or starting the thread itself (`threadStart`).  When the thread starts,
the callback reports "Playbook Execution Started" regardless of
`backgroundRun`. -/
def execute_playbook_callback (nClicks : List Nat) (playbookFile : String)
    (threadStart : Except String Unit)
    (backgroundRun : Except PlaybookError Unit) :
    CallbackResult ExecuteCbOut :=
  if !(nClicks.any (fun n => n != 0)) then CallbackResult.preventUpdate
  else
    match threadStart, backgroundRun with
    | Except.error e, _ =>
        CallbackResult.ok
          ⟨false, false, (""), true, ("Unexpected Error: ") ++ e, Option.none, true⟩
    | Except.ok _, _ =>
        CallbackResult.ok
          ⟨true, true, ("Playbook Execution Started"), false, (""),
           some playbookFile, false⟩

-- ## Concrete fixtures used by witnesses

/-- A technique that validates and runs successfully, for engine
witnesses. -/
def okTechnique : Technique :=
  { validate := fun _ => Except.ok ()
  , run := fun _ =>
      Except.ok (ExecutionStatus.SUCCESS,
        ⟨some (PyVal.str ("done")), Option.none, Option.none⟩) }

/-- A registry holding `okTechnique` under id `t1`. -/
def regT1 : TechniqueRegistry Technique := ⟨[(("t1"), okTechnique)]⟩

/-- A step resolving to `t1`. -/
def stepT1 : PlaybookStep := ⟨("t1"), [], some 0⟩

/-- A step whose technique id resolves to nothing. -/
def stepMissing : PlaybookStep := ⟨("missing"), [], some 0⟩

-- ## Claim theorems

/-- C10: `PlaybookStep.__init__` stores `module` and `wait` exactly as
given — `wait=None` stays `None` and a negative wait is accepted
unchanged — and stores `params` as given when it is not `None` and as the
empty mapping when it is `None`. -/
theorem playbookStep_init_stores_fields (m : String) (p : Option Params)
    (w : Option Int) (ps : Params) :
    (PlaybookStep.init m p w).module = m
    ∧ (PlaybookStep.init m p w).wait = w
    ∧ (PlaybookStep.init m (some ps) w).params = ps
    ∧ (PlaybookStep.init m Option.none w).params = []
    ∧ (PlaybookStep.init m p Option.none).wait = Option.none
    ∧ (PlaybookStep.init m p (some (-3))).wait = some (-3) :=
  ⟨rfl, rfl, rfl, rfl, rfl, rfl⟩

/-- C9: `get_parameters` of every technique under `src/` is embedded as a
constant (the Python bodies are single `return` statements of literal
dicts, hence pure and deterministic), and every entry of every returned
mapping carries the fields `type`, `required`, `default`, the display
name `name`, and the input-field hint `input_field_type`. -/
theorem get_parameters_all_fields :
    awsEnumerateIAMUsers_get_parameters.all (fun p => hasAllFields p.2) = true
    ∧ azureEstablishAccessAsUser_get_parameters.all (fun p => hasAllFields p.2) = true
    ∧ azureEstablishAccessAsApp_get_parameters.all (fun p => hasAllFields p.2) = true
    ∧ azurePasswordSpray_get_parameters.all (fun p => hasAllFields p.2) = true
    ∧ azureModifyKeyvaultAccess_get_parameters.all (fun p => hasAllFields p.2) = true :=
  ⟨rfl, rfl, rfl, rfl, rfl⟩

/-- C8: registering a technique under an id already present in the
registry fails with a DuplicateId error, and registering under distinct
ids then listing returns all of them, each retrievable under its declared
id. -/
theorem technique_registry_register_contract {α : Type} (id1 id2 : String)
    (c1 c2 : α) (h : id1 ≠ id2) :
    (TechniqueRegistry.register ⟨[]⟩ id1 c1).bind
        (fun r => r.register id2 c2)
      = Except.ok ⟨[(id1, c1), (id2, c2)]⟩
    ∧ (∀ (r : TechniqueRegistry α) (c : α),
        (List.lookup id1 r.catalog).isSome →
        r.register id1 c = Except.error (RegistryError.DuplicateId id1))
    ∧ TechniqueRegistry.listAll
        (⟨[(id1, c1), (id2, c2)]⟩ : TechniqueRegistry α) = [(id1, c1), (id2, c2)]
    ∧ List.lookup id1 [(id1, c1), (id2, c2)] = some c1
    ∧ List.lookup id2 [(id1, c1), (id2, c2)] = some c2 := by
  have hne : (id2 == id1) = false := beq_eq_false_iff_ne.mpr (Ne.symm h)
  refine ⟨?_, ?_, rfl, ?_, ?_⟩
  · simp [TechniqueRegistry.register, Except.bind, List.lookup, hne]
  · intro r c hmem
    simp [TechniqueRegistry.register, hmem]
  · simp [List.lookup]
  · simp [List.lookup, hne]

/-- Witness for C8 at concrete ids `t1`, `t2`. -/
theorem technique_registry_register_contract_witness :
    (TechniqueRegistry.register (⟨[]⟩ : TechniqueRegistry Nat) ("t1") 0).bind
        (fun r => r.register ("t2") 1)
      = Except.ok ⟨[(("t1"), 0), (("t2"), 1)]⟩ :=
  (technique_registry_register_contract ("t1") ("t2") 0 1 (by decide)).1

/-- C6: evaluating `execute_playbook_callback` at a click on a playbook
whose construction raises `PlaybookError` in the background thread: the
callback still returns the "Playbook Execution Started" outputs, because
`Playbook(playbook_file)` and `.execute()` run inside the daemon thread
where the callback's `except PlaybookError` handler cannot see them; the
error message is never returned synchronously to the user. -/
theorem execute_playbook_callback_ignores_playbook_error :
    execute_playbook_callback [1] ("Empty_Playbook.yml") (Except.ok ())
        (Except.error PlaybookError.emptySequence)
      = CallbackResult.ok
          ⟨true, true, ("Playbook Execution Started"), false, (""),
           some ("Empty_Playbook.yml"), false⟩ := rfl

/-- C1: a 3-step playbook whose step 2 does not resolve in the Registry
still produces 3 report records: step 2 is recorded as a step-level ERROR
result and steps 1 and 3 are recorded per their own technique outcomes
(`executeStep` applied to each). -/
theorem engine_unresolved_step_records_error_and_continues
    (reg : TechniqueRegistry Technique) (s1 s2 s3 : PlaybookStep)
    (h : List.lookup s2.module reg.catalog = Option.none) :
    Playbook.execute reg [s1, s2, s3]
      = Except.ok [executeStep reg 1 s1, executeStep reg 2 s2, executeStep reg 3 s3]
    ∧ (executeStep reg 2 s2).status = ExecutionStatus.ERROR
    ∧ [executeStep reg 1 s1, executeStep reg 2 s2, executeStep reg 3 s3].length = 3 := by
  refine ⟨rfl, ?_, rfl⟩
  simp [executeStep, h]

/-- Witness for C1: a concrete registry holding only `t1` and the 3-step
playbook `t1, missing, t1`. -/
theorem engine_unresolved_step_witness :
    Playbook.execute regT1 [stepT1, stepMissing, stepT1]
      = Except.ok [executeStep regT1 1 stepT1, executeStep regT1 2 stepMissing,
          executeStep regT1 3 stepT1]
    ∧ (executeStep regT1 2 stepMissing).status = ExecutionStatus.ERROR
    ∧ [executeStep regT1 1 stepT1, executeStep regT1 2 stepMissing,
        executeStep regT1 3 stepT1].length = 3 :=
  engine_unresolved_step_records_error_and_continues regT1 stepT1 stepMissing
    stepT1 (by rfl)

/-- Association-list lookup success implies membership of the pair. -/
theorem lookup_mem {α β : Type} [BEq α] [LawfulBEq α] {k : α} {v : β} :
    ∀ {l : List (α × β)}, List.lookup k l = some v → (k, v) ∈ l := by
  intro l
  induction l with
  | nil => intro h; simp [List.lookup] at h
  | cons p t ih =>
    intro h
    match p with
    | (a, b) =>
      rw [List.lookup] at h
      split at h
      · cases h
        have hka : k = a := by
          rename_i heq
          exact eq_of_beq heq
        subst hka
        exact List.mem_cons_self _ _
      · exact List.mem_cons_of_mem _ (ih h)

/-- Environment fixture: well-behaved AWS calls. -/
def awsEnvDefault : AwsEnv :=
  { clientInit := Except.ok ()
  , listUsersAll := Except.ok (200, [("alice")], PyVal.strDict [])
  , listUsersPrefixed := Except.ok (200, [], PyVal.strDict []) }

/-- Environment fixture: well-behaved Azure CLI calls. -/
def azEnvDefault : AzUserEnv :=
  { azCliPath := Except.ok ("az")
  , loginRun := Except.ok ⟨0, ("[]"), ("")⟩
  , interactiveRun := Except.ok ⟨0, ("[]"), ("")⟩
  , jsonLoads := fun _ => Except.ok (PyVal.strList [])
  , subsTransform := fun v => Except.ok v }

/-- Environment fixture: the first Azure CLI login raises. -/
def azEnvFail : AzUserEnv :=
  { azCliPath := Except.ok ("az")
  , loginRun := Except.error ("boom")
  , interactiveRun := Except.error ("boom")
  , jsonLoads := fun _ => Except.error ("bad json")
  , subsTransform := fun _ => Except.error ("bad shape") }

/-- Supplied parameters satisfying the Azure user technique's required
fields. -/
def azGoodKwargs : Params :=
  [(("username"), PyVal.str ("alice")), (("password"), PyVal.str ("hunter2"))]

/-- C3 (amended): for the cited techniques and every supplied mapping and
environment, every exception raised inside the `try` block of `execute` is
caught and returned as a FAILURE pair with an error payload carrying an
`error` and a `message`, and every returned status lies in
SUCCESS / PARTIAL_SUCCESS / FAILURE / ERROR; however
`validate_parameters`, invoked before the `try` block, propagates a
validation error out of `execute` (AWS has no required parameter, so its
`execute` never throws; the Azure technique throws exactly when
validation fails). -/
theorem technique_execute_status_contract (kwargs : Params) (envA : AwsEnv)
    (envU : AzUserEnv) :
    (∃ r, awsEnumerateIAMUsers_execute kwargs envA = Except.ok r)
    ∧ (∀ s p, awsEnumerateIAMUsers_execute kwargs envA = Except.ok (s, p) →
        s = ExecutionStatus.SUCCESS ∨ s = ExecutionStatus.PARTIAL_SUCCESS
        ∨ s = ExecutionStatus.FAILURE ∨ s = ExecutionStatus.ERROR)
    ∧ (∀ s p, azureEstablishAccessAsUser_execute kwargs envU = Except.ok (s, p) →
        s = ExecutionStatus.SUCCESS ∨ s = ExecutionStatus.PARTIAL_SUCCESS
        ∨ s = ExecutionStatus.FAILURE ∨ s = ExecutionStatus.ERROR)
    ∧ (validate_parameters azureEstablishAccessAsUser_get_parameters kwargs
          = Except.ok () →
        ∃ r, azureEstablishAccessAsUser_execute kwargs envU = Except.ok r)
    ∧ (∀ e, validate_parameters azureEstablishAccessAsUser_get_parameters kwargs
          = Except.error e →
        azureEstablishAccessAsUser_execute kwargs envU = Except.error e)
    ∧ (∀ e, awsEnumerateIAMUsers_tryBody kwargs envA = Except.error e →
        awsEnumerateIAMUsers_execute kwargs envA
          = Except.ok (ExecutionStatus.FAILURE,
              ⟨some (PyVal.str ("Failed to enumerate IAM users")),
               some (PyVal.str e), Option.none⟩))
    ∧ (∀ e, validate_parameters azureEstablishAccessAsUser_get_parameters kwargs
          = Except.ok () →
        azureEstablishAccessAsUser_tryBody kwargs envU = Except.error e →
        azureEstablishAccessAsUser_execute kwargs envU
          = Except.ok (ExecutionStatus.FAILURE,
              ⟨some (PyVal.str ("Failed to establish access to Azure tenant")),
               some (PyVal.str e), Option.none⟩)) := by
  have hawsOk : awsEnumerateIAMUsers_execute kwargs envA
      = Except.ok (catchAsFailure ("Failed to enumerate IAM users")
          (awsEnumerateIAMUsers_tryBody kwargs envA)) := rfl
  refine ⟨⟨_, hawsOk⟩, ?_, ?_, ?_, ?_, ?_, ?_⟩
  · intro s p _
    cases s
    · exact Or.inl rfl
    · exact Or.inr (Or.inl rfl)
    · exact Or.inr (Or.inr (Or.inl rfl))
    · exact Or.inr (Or.inr (Or.inr rfl))
  · intro s p _
    cases s
    · exact Or.inl rfl
    · exact Or.inr (Or.inl rfl)
    · exact Or.inr (Or.inr (Or.inl rfl))
    · exact Or.inr (Or.inr (Or.inr rfl))
  · intro hv
    refine ⟨catchAsFailure ("Failed to establish access to Azure tenant")
      (azureEstablishAccessAsUser_tryBody kwargs envU), ?_⟩
    simp [azureEstablishAccessAsUser_execute, hv]
  · intro e hv
    simp [azureEstablishAccessAsUser_execute, hv]
  · intro e htry
    rw [hawsOk, htry]
    rfl
  · intro e hv htry
    simp [azureEstablishAccessAsUser_execute, hv, htry, catchAsFailure]

/-- Counterexample for C3 as stated: with the supplied mapping `{}` the
Azure technique's `execute` raises the validation error out of its body
(the `self.validate_parameters(kwargs)` call sits before the `try` block),
instead of returning a FAILURE pair. -/
theorem azure_execute_throws_on_missing_required :
    azureEstablishAccessAsUser_execute [] azEnvDefault
      = Except.error ("ValidationError: missing required parameter: username") := rfl

/-- Witness for C3 at concrete inputs: valid credentials, an environment
whose CLI login raises; the exception is caught and reported as FAILURE
with an error payload. -/
theorem technique_execute_status_contract_witness :
    azureEstablishAccessAsUser_execute azGoodKwargs azEnvFail
      = Except.ok (ExecutionStatus.FAILURE,
          ⟨some (PyVal.str ("Failed to establish access to Azure tenant")),
           some (PyVal.str ("boom")), Option.none⟩) :=
  (technique_execute_status_contract azGoodKwargs awsEnvDefault
    azEnvFail).2.2.2.2.2.2 ("boom") (by rfl) (by rfl)

/-- Playbook fixture with a secret parameter value, for export/import
witnesses. -/
def pbSecret : PlaybookFile :=
  { name := ("Attack PB")
  , description := ("demo")
  , author := ("a")
  , references := []
  , sequence := [(1, ⟨("t1"), [(("password"), PyVal.str ("hunter2"))], 0⟩)] }

/-- C7: exporting with `include_params=True` followed by
`import_playbook` is the identity on the playbook (round-trips all step
data exactly); exporting with `include_params=False` replaces every
parameter value by the mask placeholder, so no original secret value
different from the placeholder is ever reproduced; and the export
callback passes `include_params` as the negation of the mask switch. -/
theorem export_import_roundtrip_and_masking (pb : PlaybookFile)
    (existingNames : List String) (mp : Bool) (h : pb.name ∉ existingNames) :
    Playbook.import_playbook (Playbook.export pb true) existingNames
      = Except.ok pb
    ∧ export_playbook_callback mp pb = Playbook.export pb (!mp)
    ∧ (∀ pos e2, (pos, e2) ∈ (Playbook.export pb false).sequence →
        ∀ kv ∈ e2.params, kv.2 = maskedValue)
    ∧ (∀ pos e, (pos, e) ∈ pb.sequence →
        ∀ k v, List.lookup k e.params = some v → v ≠ maskedValue →
        ∀ e2, (pos, e2) ∈ (Playbook.export pb false).sequence →
          List.lookup k e2.params ≠ some v) := by
  have hmask : ∀ pos e2, (pos, e2) ∈ (Playbook.export pb false).sequence →
      ∀ kv ∈ e2.params, kv.2 = maskedValue := by
    intro pos e2 hmem kv hkv
    have hmem2 : (pos, e2) ∈ pb.sequence.map (fun ns => (ns.1, maskStepParams ns.2)) :=
      hmem
    rcases List.mem_map.mp hmem2 with ⟨ns, _, hns⟩
    have he2 : maskStepParams ns.2 = e2 := congrArg Prod.snd hns
    rw [← he2] at hkv
    simp only [maskStepParams] at hkv
    rcases List.mem_map.mp hkv with ⟨kv0, _, hkv0⟩
    rw [← hkv0]
  refine ⟨?_, rfl, hmask, ?_⟩
  · simp [Playbook.export, Playbook.import_playbook, h]
  · intro pos e _ k v _ hne e2 hmem2 hlk
    exact hne ((hmask pos e2 hmem2 (k, v) (lookup_mem hlk)).symm ▸ rfl)

/-- Witness for C7: the non-masked export of a concrete playbook with a
secret parameter value imports back to the identical playbook. -/
theorem export_import_roundtrip_witness :
    Playbook.import_playbook (Playbook.export pbSecret true) [] = Except.ok pbSecret :=
  (export_import_roundtrip_and_masking pbSecret [] true (by simp)).1

/-- Filtering one occurrence out of a duplicate-free list shortens it by
exactly one. -/
theorem filter_ne_length {k : Nat} :
    ∀ {l : List Nat}, l.Nodup → k ∈ l →
      (l.filter (fun n => n != k)).length = l.length - 1 := by
  intro l
  induction l with
  | nil => intro _ hm; cases hm
  | cons a t ih =>
    intro hnd hm
    rcases List.nodup_cons.mp hnd with ⟨hat, hndt⟩
    by_cases hak : a = k
    · subst hak
      have hfe : t.filter (fun n => n != a) = t :=
        List.filter_eq_self.mpr (fun x hx => by
          have hxa : x ≠ a := fun he => hat (he ▸ hx)
          simp [hxa])
      have hbe : (a != a) = false := by simp
      simp [List.filter_cons, hbe, hfe]
    · have hmk : k ∈ t := by
        cases hm with
        | head => exact absurd rfl hak
        | tail _ h => exact h
      have hlen := ih hndt hmk
      have hpos : 0 < t.length := List.length_pos.mpr (List.ne_nil_of_mem hmk)
      have hbe : (a != k) = true := by simp [hak]
      have hfil : ((a :: t).filter (fun n => n != k)).length
          = (t.filter (fun n => n != k)).length + 1 := by
        simp [List.filter_cons, hbe]
      rw [hfil, hlen]
      simp
      omega

/-- Keys produced by the editor's sequence-rebuild loop when every row has
a selected module: consecutive positions starting right after `n`. -/
theorem rebuildRows_keys_all_selected (sp : Nat → Params) :
    ∀ (rows : List (Option String × Option Int)) (n : Nat),
      (∀ r ∈ rows, moduleSelected r.1 = true) →
      ((rows.enumFrom n).filterMap (fun p =>
        match p.2.1 with
        | some m =>
            if m == ("") then Option.none
            else some (p.1 + 1, (⟨m, sp p.1, (p.2.2).getD 0⟩ : SeqEntry))
        | Option.none => Option.none)).map Prod.fst
        = List.range' (n + 1) rows.length := by
  intro rows
  induction rows with
  | nil => intro n _; rfl
  | cons r t ih =>
    intro n hall
    rcases r with ⟨om, w⟩
    have hr := hall (om, w) (List.mem_cons_self _ _)
    cases om with
    | none => exact absurd hr (by simp [moduleSelected])
    | some m =>
      have hme : (m == ("")) = false := by
        simp only [moduleSelected] at hr
        cases hmeq : (m == ("")) with
        | false => rfl
        | true => rw [hmeq] at hr; cases hr
      have htail := ih (n + 1) (fun r hr => hall r (List.mem_cons_of_mem _ hr))
      simp only [List.enumFrom, List.filterMap_cons, hme, Bool.false_eq_true,
        if_false, List.map_cons, htail, List.length_cons]
      rw [List.range'_succ]

/-- C2 (amended): the creator's `remove_playbook_step` renumbers a
contiguous 1-based sequence of length N to exactly `1..N-1` (one form
removed, remaining forms renumbered in order), `add_playbook_step` extends
`1..N` to `1..N+1`, and `update_playbook_from_editor` rebuilds
`PB_Sequence` with keys exactly `1..N` provided every form row has a
module selected; a row without a selected module is skipped while later
rows keep their 1-based row index as key, which leaves a gap (see the
counterexample). -/
theorem step_positions_contiguous (N k : Nat) (modules : List (Option String))
    (waits : List (Option Int)) (sp : Nat → Params)
    (h1 : 1 ≤ k) (h2 : k ≤ N)
    (hall : ∀ m ∈ modules, moduleSelected m = true)
    (hlen : modules.length = waits.length) :
    remove_playbook_step k (List.range' 1 N) = List.range' 1 (N - 1)
    ∧ add_playbook_step (List.range' 1 N) = List.range' 1 (N + 1)
    ∧ (update_playbook_from_editor modules waits sp).map Prod.fst
        = List.range' 1 modules.length := by
  refine ⟨?_, ?_, ?_⟩
  · have hnd : (List.range' 1 N).Nodup := List.nodup_range' 1 N
    have hm : k ∈ List.range' 1 N := List.mem_range'_1.mpr ⟨h1, by omega⟩
    have hflen := filter_ne_length hnd hm
    show (List.range ((List.range' 1 N).filter (fun n => n != k)).length).map
        (fun i => generate_step_form (i + 1)) = List.range' 1 (N - 1)
    rw [hflen, List.length_range']
    have hfun : (fun i => generate_step_form (i + 1)) = (fun x : Nat => 1 + x) :=
      funext (fun i => Nat.add_comm i 1)
    rw [hfun, ← List.range'_eq_map_range]
  · show List.range' 1 N ++ [generate_step_form ((List.range' 1 N).length + 1)]
        = List.range' 1 (N + 1)
    rw [List.length_range']
    have : List.range' 1 (N + 1) = List.range' 1 N ++ [1 + N] :=
      List.range'_1_concat 1 N
    rw [this]
    simp [generate_step_form, Nat.add_comm]
  · have hzall : ∀ r ∈ modules.zip waits, moduleSelected r.1 = true :=
      fun r hr => hall r.1 (List.of_mem_zip hr).1
    have hkeys := rebuildRows_keys_all_selected sp (modules.zip waits) 0 hzall
    have hzlen : (modules.zip waits).length = modules.length := by
      rw [List.length_zip]
      omega
    simpa [update_playbook_from_editor, rebuildSequenceRows, List.enum, hzlen]
      using hkeys

/-- Counterexample for C2 as stated: in the editor, a first form row with
no module selected followed by a selected row produces the sequence keys
`[2]`, which is not the contiguous `1..N` the claim requires. -/
theorem update_editor_gap_counterexample :
    (update_playbook_from_editor [Option.none, some ("AWSEnumerateIAMUsers")]
        [some 0, some 0] (fun _ => [])).map Prod.fst = [2]
    ∧ (update_playbook_from_editor [Option.none, some ("AWSEnumerateIAMUsers")]
        [some 0, some 0] (fun _ => [])).map Prod.fst
      ≠ List.range' 1 ((update_playbook_from_editor
          [Option.none, some ("AWSEnumerateIAMUsers")]
          [some 0, some 0] (fun _ => [])).map Prod.fst).length :=
  ⟨rfl, by decide⟩

/-- Witness for C2 at concrete inputs: removing step 2 of 3, adding to 3,
and rebuilding a fully-selected single-row editor form. -/
theorem step_positions_contiguous_witness :
    remove_playbook_step 2 (List.range' 1 3) = List.range' 1 2
    ∧ add_playbook_step (List.range' 1 3) = List.range' 1 4
    ∧ (update_playbook_from_editor [some ("t1")] [some 5] (fun _ => [])).map
        Prod.fst = List.range' 1 1 :=
  step_positions_contiguous 3 2 [some ("t1")] [some 5] (fun _ => [])
    (by decide) (by decide) (by decide) (by decide)

/-- `pyStrLt` agrees with the lexicographic order on strings. -/
theorem pyStrLt_iff (a b : String) : pyStrLt a b = true ↔ a < b := by
  rw [pyStrLt, decide_eq_true_iff, String.lt_iff_toList_lt]
  exact Iff.rfl

/-- `pyMaxStr` (Python `max` over a nonempty string list) is a member of
the list and an upper bound of it. -/
theorem pyMaxStr_spec : ∀ (fs : List String) (f : String),
    pyMaxStr f fs ∈ f :: fs ∧ ∀ y ∈ f :: fs, y ≤ pyMaxStr f fs := by
  intro fs
  induction fs with
  | nil =>
    intro f
    refine ⟨List.mem_cons_self _ _, ?_⟩
    intro y hy
    have hyf : y = f := by simpa using hy
    rw [hyf]
    exact le_refl f
  | cons b t ih =>
    intro f
    have hfold : pyMaxStr f (b :: t) = pyMaxStr (if pyStrLt f b then b else f) t :=
      rfl
    by_cases hfb : f < b
    · have hb : pyStrLt f b = true := (pyStrLt_iff f b).mpr hfb
      have hif : (if pyStrLt f b then b else f) = b := by rw [if_pos hb]
      obtain ⟨hmem, hub⟩ := ih b
      constructor
      · rw [hfold, hif]
        exact List.mem_cons_of_mem f hmem
      · intro y hy
        rw [hfold, hif]
        rcases List.mem_cons.mp hy with hyf | hy2
        · rw [hyf]
          exact le_trans (le_of_lt hfb) (hub b (List.mem_cons_self _ _))
        · exact hub y hy2
    · have hb : ¬ (pyStrLt f b = true) := fun hc => hfb ((pyStrLt_iff f b).mp hc)
      have hif : (if pyStrLt f b then b else f) = f := by rw [if_neg hb]
      obtain ⟨hmem, hub⟩ := ih f
      constructor
      · rw [hfold, hif]
        rcases List.mem_cons.mp hmem with hm | hm
        · rw [hm]
          exact List.mem_cons_self _ _
        · exact List.mem_cons_of_mem _ (List.mem_cons_of_mem _ hm)
      · intro y hy
        rw [hfold, hif]
        rcases List.mem_cons.mp hy with hyf | hy2
        · rw [hyf]
          exact hub f (List.mem_cons_self _ _)
        · rcases List.mem_cons.mp hy2 with hyb | hyt
          · rw [hyb]
            exact le_trans (le_of_not_lt hfb) (hub f (List.mem_cons_self _ _))
          · exact hub y (List.mem_cons_of_mem _ hyt)

/-- Playbook fixture with one step, for progress-tracker witnesses. -/
def pbOneStep : PlaybookFile :=
  { name := ("PB")
  , description := ("")
  , author := ("")
  , references := []
  , sequence := [(1, ⟨("t1"), [], 0⟩)] }

/-- C4 (amended): polling the progress callback when no execution-report
folder matching the playbook exists raises `PreventUpdate` (the callback
skips the UI update — a normal Dash control-flow outcome, not an error
display), rather than returning a `(0, total_steps, empty)` progress
value. -/
theorem progress_poll_no_report_prevents_update (s : String)
    (pb : PlaybookFile) (listing : List String)
    (parse : String → List (List (String × String)))
    (h : listing.filter (fun d => pyStartsWith d (pb.name ++ ("_"))) = []) :
    update_execution_progress (some s) (Except.ok pb) listing parse
      = CallbackResult.preventUpdate := by
  simp only [update_execution_progress, h]

/-- Witness for C4: a listing without any matching report folder. -/
theorem progress_poll_no_report_witness :
    update_execution_progress (some ("PB2.yml")) (Except.ok pbOneStep)
        [("Other_20240101")] (fun _ => [])
      = CallbackResult.preventUpdate :=
  progress_poll_no_report_prevents_update ("PB2.yml") pbOneStep
    [("Other_20240101")] (fun _ => []) (by rfl)

/-- Counterexample for C4 as stated: polling before any report exists
(empty output directory) yields `PreventUpdate`, not the claimed
`(0, total_steps, empty)` progress result. -/
theorem progress_poll_before_report_counterexample :
    update_execution_progress (some ("PB.yml")) (Except.ok pbOneStep) []
        (fun _ => [])
      = CallbackResult.preventUpdate
    ∧ update_execution_progress (some ("PB.yml")) (Except.ok pbOneStep) []
        (fun _ => [])
      ≠ CallbackResult.ok (⟨0, 1, stepCards pbOneStep.sequence []⟩, false) :=
  ⟨rfl, by decide⟩

/-- C5: on a poll with at least one matching execution-report folder, the
progress callback uses the lexicographically greatest matching folder
name (`pyMaxStr`, a member of and upper bound of the matching folders),
reports `steps_completed` as the number of step results parsed from that
folder, and disables further polling exactly when `steps_completed`
equals the playbook's total step count. -/
theorem progress_poll_latest_folder (s : String) (pb : PlaybookFile)
    (listing : List String) (parse : String → List (List (String × String)))
    (f : String) (fs : List String)
    (h : listing.filter (fun d => pyStartsWith d (pb.name ++ ("_"))) = f :: fs) :
    update_execution_progress (some s) (Except.ok pb) listing parse
      = CallbackResult.ok
          (⟨(parse (pyMaxStr f fs)).length, pb.sequence.length,
            stepCards pb.sequence (parse (pyMaxStr f fs))⟩,
           (parse (pyMaxStr f fs)).length == pb.sequence.length)
    ∧ pyMaxStr f fs ∈ f :: fs
    ∧ (∀ y ∈ f :: fs, y ≤ pyMaxStr f fs)
    ∧ (∀ v c, update_execution_progress (some s) (Except.ok pb) listing parse
        = CallbackResult.ok (v, c) → (c = true ↔ v.stepsCompleted = v.totalSteps)) := by
  have h1 : update_execution_progress (some s) (Except.ok pb) listing parse
      = CallbackResult.ok
          (⟨(parse (pyMaxStr f fs)).length, pb.sequence.length,
            stepCards pb.sequence (parse (pyMaxStr f fs))⟩,
           (parse (pyMaxStr f fs)).length == pb.sequence.length) := by
    simp only [update_execution_progress, h]
  obtain ⟨hmem, hub⟩ := pyMaxStr_spec fs f
  refine ⟨h1, hmem, hub, ?_⟩
  intro v c hvc
  rw [h1] at hvc
  cases hvc
  simp

/-- Witness for C5: one matching report folder containing one parsed step
result for a one-step playbook; the interval is disabled. -/
theorem progress_poll_latest_folder_witness :
    update_execution_progress (some ("PB.yml")) (Except.ok pbOneStep)
        [("PB_20240101")] (fun _ => [[(("status"), ("SUCCESS"))]])
      = CallbackResult.ok
          (⟨1, 1, stepCards pbOneStep.sequence [[(("status"), ("SUCCESS"))]]⟩,
           true) :=
  (progress_poll_latest_folder ("PB.yml") pbOneStep [("PB_20240101")]
    (fun _ => [[(("status"), ("SUCCESS"))]]) ("PB_20240101") [] (by rfl)).1
